import Mathlib

/-!
# Verification of the `integration` raw-data layer

Shallow embedding of the raw ingestion stage of the `integration`
repository (`src/integration/raw/`): the adapter family
(`file.py`, `xlsx.py`, `mdb.py`, `rest.py`, `database.py`), the adapter
factory (`factory.py`), the per-file ingestion coordinator
(`ingestion.py`) and the output-path synthesis of the storage layer
(`storage.py`).  Python values appearing in cells, configurations and
metadata are modelled by the inductive `Val`; Python `dict`s are
modelled as insertion-ordered association lists (keys unique, as the
JSON parser and the config builders produce them); in-place mutation is
modelled by explicit state passing — the mapping a function returns is
the object the caller holds.
-/

/-- A Python value as it appears in parsed JSON data, adapter
configurations and table metadata: `None`, booleans, (integral)
numbers, strings, lists and dicts.  Dicts are insertion-ordered
association lists.  JSON floats are outside the modelled fragment;
none of the verified properties depend on them. -/
inductive Val where
  | null : Val
  | bool (b : Bool) : Val
  | int (n : Int) : Val
  | str (s : String) : Val
  | list (xs : List Val) : Val
  | dict (kvs : List (String × Val)) : Val

mutual

/-- Python `repr` of a parsed-JSON value, as used inside containers by
`str`.  Faithful for strings free of quotes, backslashes and control
characters (the JSON fragment the repository's data uses): Python would
switch the quoting style for strings containing a single quote. -/
def pyRepr : Val → String
  | .null => "None"
  | .bool b => if b then "True" else "False"
  | .int n => toString n
  | .str s => "'" ++ s ++ "'"
  | .list xs => "[" ++ String.intercalate ", " (pyReprList xs) ++ "]"
  | .dict kvs => "\x7b" ++ String.intercalate ", " (pyReprDict kvs) ++ "\x7d"

/-- Rendering by `repr` of each element of a Python list. -/
def pyReprList : List Val → List String
  | [] => []
  | x :: xs => pyRepr x :: pyReprList xs

/-- Rendering by `repr` of each `key: value` entry of a Python dict. -/
def pyReprDict : List (String × Val) → List String
  | [] => []
  | (k, v) :: kvs => ("'" ++ k ++ "': " ++ pyRepr v) :: pyReprDict kvs

end

/-- Python `str` of a parsed-JSON value (`str(raw_data)` in
`FileAdapter.fetch`'s fallback branch): the string itself for a `str`,
`repr` rendering for every other value. -/
def pyStr : Val → String
  | .str s => s
  | v => pyRepr v

/-- The errors the embedded Python fragments can raise.
`attributeError` models Python's `AttributeError` (attribute lookup on
an object that lacks it). -/
inductive PyErr where
  | attributeError : PyErr
deriving DecidableEq, Repr

/-- The `Table` dataclass of `adapters/base.py`: ordered column names,
ordered row tuples (rows modelled as `List Val`), metadata dict. -/
structure Table where
  name : String
  columns : List String
  records : List (List Val)
  metadata : List (String × Val)

/-- Embedding of `Table.as_dicts` (`adapters/base.py`):
`[dict(zip(self.columns, record)) for record in self.records]`.
`zip` truncates at the shorter sequence; the resulting dict is modelled
as the uncollapsed list of pairs.  Python's `dict(...)` would collapse
duplicate column names (last value wins), a divergence confined to
duplicate-column tables, on which no theorem here depends. -/
def Table.as_dicts (t : Table) : List (List (String × Val)) :=
  t.records.map (fun record => t.columns.zip record)

/-- Embedding of `row.get(col, None)` in `FileAdapter.fetch`'s JSON branch: key
lookup with `None` default on a dict, `AttributeError` on any other
value (Python: only dicts have `.get`). -/
def pyGet (row : Val) (key : String) : Except PyErr Val :=
  match row with
  | .dict kvs => .ok ((kvs.lookup key).getD Val.null)
  | _ => .error PyErr.attributeError

/-- Total variant of `pyGet` used to state what the JSON branch
computes on rows that are dicts. -/
def pyGetD (row : Val) (key : String) : Val :=
  match row with
  | .dict kvs => (kvs.lookup key).getD Val.null
  | _ => Val.null

/-- Whether a value is a Python dict (`isinstance(raw_data[0], dict)`). -/
def Val.isDict : Val → Bool
  | .dict _ => true
  | _ => false

/-- Whether a parsed JSON root takes `FileAdapter.fetch`'s JSON
list-of-objects branch:
`isinstance(raw_data, list) and raw_data and isinstance(raw_data[0], dict)`. -/
def Val.isNonEmptyListHeadDict : Val → Bool
  | .list (first :: _) => first.isDict
  | _ => false

/-- Left-to-right effectful map with first-error semantics, the shape
of Python's list comprehensions over fallible expressions: the first
raised exception aborts the whole comprehension. -/
def mapExcept {ε α β : Type} (f : α → Except ε β) : List α → Except ε (List β)
  | [] => .ok []
  | x :: xs =>
    match f x with
    | .error e => .error e
    | .ok y => (mapExcept f xs).map (fun ys => y :: ys)

/-- The single-column fallback table of `FileAdapter.fetch`'s JSON
branch: `columns = ['value']`, one record holding `str(raw_data)`. -/
def FileAdapter.jsonFallbackTable (stem : String) (root : Val) : Table :=
  { name := stem
    columns := ["value"]
    records := [[Val.str (pyStr root)]]
    metadata := [("file_type", Val.str "json"), ("row_count", Val.int 1),
                 ("column_count", Val.int 1)] }

/-- JSON branch of `FileAdapter.fetch` (`adapters/file.py`), applied to
the parsed root value (`json.load` abstracted as the `root` argument;
`stem` is `path.stem`).  If the root is a non-empty list whose first
element is a dict, columns are the first dict's keys and each row is
`tuple(row.get(col, None) for col in columns)` — a row that is not a
dict raises `AttributeError` as soon as one column is looked up.
Any other root yields the single-column fallback table. -/
def FileAdapter.fetchJson (stem : String) (root : Val) : Except PyErr (List Table) :=
  match root with
  | .list (first :: rest) =>
    match first with
    | .dict kvs0 =>
      let columns := kvs0.map Prod.fst
      ((mapExcept (fun row => mapExcept (pyGet row) columns) (first :: rest)).map
        (fun records =>
          [{ name := stem
             columns := columns
             records := records
             metadata := [("file_type", Val.str "json"),
                          ("row_count", Val.int records.length),
                          ("column_count", Val.int columns.length)] }]))
    | _ => .ok [FileAdapter.jsonFallbackTable stem (Val.list (first :: rest))]
  | root => .ok [FileAdapter.jsonFallbackTable stem root]

/-- CSV branch of `FileAdapter.fetch` (`adapters/file.py`), applied to
the rows produced by `csv.reader` (the RFC-4180 lexing itself is the
standard library's and is abstracted as the `rows` argument).  A
non-empty file yields one table: columns are the first row, records
the remaining rows as tuples of the untouched cell strings; an empty
file yields no table. -/
def FileAdapter.fetchCsv (stem : String) (rows : List (List String)) : List Table :=
  match rows with
  | [] => []
  | header :: rest =>
    let records := rest.map (fun row => row.map Val.str)
    [{ name := stem
       columns := header
       records := records
       metadata := [("file_type", Val.str "csv"),
                    ("row_count", Val.int records.length),
                    ("column_count", Val.int header.length)] }]

/-- An item flowing through `BaseAdapter.transform` (`adapters/base.py`):
either a `Table` (what `fetch` is documented to hand over) or one of the
dictionaries `transform` itself produces
(`{'source': ..., 'timestamp': ..., 'data': table.as_dicts()}`). -/
inductive TItem where
  | table (t : Table) : TItem
  | entry (source : String) (timestamp : String)
      (data : List (List (String × Val))) : TItem

/-- Whether a transform item is a `Table` instance. -/
def TItem.isTable : TItem → Bool
  | .table _ => true
  | .entry _ _ _ => false

/-- Python attribute access `table.as_dicts()` inside
`BaseAdapter.transform`: succeeds on a `Table`, raises `AttributeError`
on the dicts `transform` itself returns (a `dict` has no `as_dicts`). -/
def TItem.asDictsMethod : TItem → Except PyErr (List (List (String × Val)))
  | .table t => .ok t.as_dicts
  | .entry _ _ _ => .error PyErr.attributeError

/-- Embedding of `BaseAdapter.transform` (`adapters/base.py`): for each element of
`data` it appends `{'source': self.__class__.__name__,
'timestamp': datetime.now().isoformat(), 'data': table.as_dicts()}`.
`clsName` is the adapter class name; the `datetime.now()` readings are
abstracted as the single fetch-time string `now`.  The loop aborts with
the exception of the first failing `as_dicts` call (so re-applying
`transform` to a non-empty output of its own raises `AttributeError`). -/
def BaseAdapter.transform (clsName now : String) (data : List TItem) :
    Except PyErr (List TItem) :=
  mapExcept (fun table =>
    (table.asDictsMethod).map (fun d => TItem.entry clsName now d)) data

/-- Python `str.lower` on the ASCII strings the repository lowers
(file extensions and format tags): per-character lower-casing. -/
def pyLower (s : String) : String :=
  String.mk (s.data.map Char.toLower)

/-- Embedding of `DataIngestion.SUPPORTED_FORMATS` (`ingestion.py`): the closed
extension-to-source-type table. -/
def DataIngestion.SUPPORTED_FORMATS : List (String × String) :=
  [(".json", "json"), (".csv", "csv"), (".xlsx", "xlsx"), (".xls", "xlsx")]

/-- Embedding of `DataIngestion._get_source_type` (`ingestion.py`):
`SUPPORTED_FORMATS.get(file_path.suffix.lower())`.  `suffix` is the
path's extension including the dot; the four-entry dict lookup is
written out as its equivalent chain of key-equality tests. -/
def DataIngestion.getSourceType (suffix : String) : Option String :=
  let ext := pyLower suffix
  if ext = ".json" then Option.some "json"
  else if ext = ".csv" then Option.some "csv"
  else if ext = ".xlsx" then Option.some "xlsx"
  else if ext = ".xls" then Option.some "xlsx"
  else Option.none

/-- Embedding of `DataIngestion._get_adapter_type` (`ingestion.py`): xlsx/xls files
go to the `'xlsx'` adapter, json/csv files to the `'file'` adapter, and
every other extension raises `ValueError` (modelled as `Except.error`
carrying the message). -/
def DataIngestion.getAdapterType (suffix : String) : Except String String :=
  let ext := pyLower suffix
  if ext = ".xlsx" ∨ ext = ".xls" then .ok "xlsx"
  else if ext = ".json" ∨ ext = ".csv" then .ok "file"
  else .error ("Unsupported file extension: " ++ ext)

/-- How `DataIngestion.process_file` (`ingestion.py`) routes a file,
before any I/O happens. -/
inductive RouteDecision where
  | skip : RouteDecision
  | routed (adapterType : String) (sourceType : String) : RouteDecision
deriving DecidableEq, Repr

/-- Routing prefix of `DataIngestion.process_file` (`ingestion.py`): if
`_get_source_type` yields nothing, a warning is logged and `None` is
returned (`skip`); otherwise the adapter type is derived and the file
is handed to `create_adapter` (`routed`).  A `ValueError` from
`_get_adapter_type` would be caught by the blanket `except` and also
produce `None`. -/
def DataIngestion.processFileRoute (suffix : String) : RouteDecision :=
  match DataIngestion.getSourceType suffix with
  | Option.none => RouteDecision.skip
  | Option.some st =>
    match DataIngestion.getAdapterType suffix with
    | .ok adapterType => RouteDecision.routed adapterType st
    | .error _ => RouteDecision.skip

/-- Adapter configurations (`config: Dict[str, Any]`): an
insertion-ordered string-keyed mapping. -/
abbrev Config := List (String × Val)

/-- The concrete adapter classes the factory (`adapters/factory.py`)
can construct. -/
inductive AdapterKind where
  | rest : AdapterKind
  | file : AdapterKind
  | database : AdapterKind
  | xlsx : AdapterKind
deriving DecidableEq, Repr

/-- Embedding of `RESTAdapter._validate_config` (`adapters/rest.py`): requires
`url` and `method`, checked in that order. -/
def RESTAdapter.validate_config (config : Config) : Except String Config :=
  if (config.lookup "url").isNone then .error "Missing required field: url"
  else if (config.lookup "method").isNone then .error "Missing required field: method"
  else .ok config

/-- Embedding of `FileAdapter._validate_config` (`adapters/file.py`): requires
`path` and `format`, and `format` must be `'json'` or `'csv'`. -/
def FileAdapter.validate_config (config : Config) : Except String Config :=
  if (config.lookup "path").isNone then .error "Missing required field: path"
  else
    match config.lookup "format" with
    | Option.none => .error "Missing required field: format"
    | Option.some (Val.str "json") => .ok config
    | Option.some (Val.str "csv") => .ok config
    | Option.some _ => .error "Unsupported file format"

/-- Embedding of `DatabaseAdapter._validate_config` (`adapters/database.py`):
requires `connection_string` and `query`, in that order. -/
def DatabaseAdapter.validate_config (config : Config) : Except String Config :=
  if (config.lookup "connection_string").isNone then
    .error "Missing required field: connection_string"
  else if (config.lookup "query").isNone then .error "Missing required field: query"
  else .ok config

/-- Embedding of `XLSXAdapter._validate_config` (`adapters/xlsx.py`): requires
`path`; if `sheet_name` is absent it is inserted with value `0` (first
sheet) into the very mapping the caller passed — the in-place dict
mutation is modelled by returning the updated mapping, which stands
for the caller's object (a new key is appended at the end, Python
dicts being insertion-ordered). -/
def XLSXAdapter.validate_config (config : Config) : Except String Config :=
  if (config.lookup "path").isNone then .error "Missing required field: path"
  else if (config.lookup "sheet_name").isNone then
    .ok (config ++ [("sheet_name", Val.int 0)])
  else .ok config

/-- The tag-to-class table of `create_adapter` (`adapters/factory.py`). -/
def factoryAdapters : List (String × AdapterKind) :=
  [("rest", AdapterKind.rest), ("file", AdapterKind.file),
   ("database", AdapterKind.database), ("xlsx", AdapterKind.xlsx)]

/-- Constructor dispatch: `adapters[source_type](config)` runs
`BaseAdapter.__init__`, which stores the config and immediately calls
the class's `_validate_config`. -/
def AdapterKind.construct : AdapterKind → Config → Except String Config
  | .rest => RESTAdapter.validate_config
  | .file => FileAdapter.validate_config
  | .database => DatabaseAdapter.validate_config
  | .xlsx => XLSXAdapter.validate_config

/-- Embedding of `create_adapter` (`adapters/factory.py`): looks the tag up in the
four-entry table; an unknown tag raises
`ValueError(f"Unsupported source type: ...")` naming the tag; a known
tag constructs the adapter (running its config validation) and returns
the constructed instance, modelled as the pair of its class and its
(possibly updated) config. -/
def create_adapter (source_type : String) (config : Config) :
    Except String (AdapterKind × Config) :=
  match factoryAdapters.lookup source_type with
  | Option.none => .error ("Unsupported source type: " ++ source_type)
  | Option.some k => (k.construct config).map (fun c => (k, c))

/-- Python `str.isalnum` as used in
`RawDataStorage._create_output_path` (`storage.py`), modelled on the
ASCII and Latin-1 repertoire: ASCII letters/digits, the Latin-1
letters U+00C0..U+00FF except the multiplication and division signs,
and the Latin-1 ordinal/micro/superscript/vulgar-fraction characters
(U+00AA, U+00B2, U+00B3, U+00B5, U+00B9, U+00BA, U+00BC..U+00BE).
Python's `isalnum` is Unicode-wide; characters above U+00FF are
outside the modelled input alphabet. -/
def pyIsAlnum (c : Char) : Bool :=
  c.isAlphanum ||
    (let n := c.toNat
     n == 0xAA || n == 0xB2 || n == 0xB3 || n == 0xB5 || n == 0xB9 || n == 0xBA ||
       (0xBC ≤ n && n ≤ 0xBE) || (0xC0 ≤ n && n ≤ 0xFF && n != 0xD7 && n != 0xF7))

/-- Whether a character belongs to the strip set of
`suffix.strip('_-')` in `storage.py`. -/
def isUnderscoreOrHyphen (c : Char) : Bool :=
  c = '_' || c = '-'

/-- Python `str.strip('_-')`: drop the characters of the set from both
ends. -/
def stripUnderscoreHyphen (l : List Char) : List Char :=
  ((l.dropWhile isUnderscoreOrHyphen).reverse.dropWhile isUnderscoreOrHyphen).reverse

/-- The header-derived filename suffix of
`RawDataStorage._create_output_path` (`storage.py`), for a truthy
`header_data`: `'_'.join(header_data)`, then every character that is
neither alphanumeric nor `_` nor `-` replaced by `_`, then `[:50]`
(Python slices strings by code points), then `.strip('_-')`. -/
def RawDataStorage.headerSuffix (header_data : List String) : String :=
  let joined := String.intercalate "_" header_data
  let replaced := joined.data.map (fun c =>
    if pyIsAlnum c || c = '_' || c = '-' then c else '_')
  String.mk (stripUnderscoreHyphen (replaced.take 50))

/-- The source file's path relative to the input directory, as
decomposed by `pathlib` in `RawDataStorage._create_output_path`:
the parent directory components (`relative_dir.parent`; empty for a
file at the input root, where `pathlib`'s `'.'` placeholder is
collapsed away on joining), the stem, and the final suffix including
its dot (`relative_path.suffix`, empty when there is none). -/
structure RelPath where
  parents : List String
  stem : String
  suffix : String
deriving DecidableEq, Repr

/-- Embedding of `relative_path.suffix.lower().lstrip('.')` (`storage.py`):
lower-case the suffix and strip every leading dot. -/
def RelPath.origExt (rp : RelPath) : String :=
  String.mk ((pyLower rp.suffix).data.dropWhile (fun c => c = '.'))

/-- Joining of path components with `/`, as `pathlib` renders paths. -/
def joinPath (parts : List String) : String :=
  String.intercalate "/" parts

/-- Single-table branch of `RawDataStorage._create_output_path`
(`storage.py`): the file goes directly under the mirrored parent
directory; a truthy `header_data` whose sanitized suffix is non-empty
is appended to the stem; a non-empty original extension is appended
next; the output extension is always `.xlsx`.  `outputDirRaw` stands
for `self.output_dir`, which `__init__` already set to
`{output_dir}/raw`. -/
def RawDataStorage.singleTablePath (outputDirRaw : String) (rp : RelPath)
    (header_data : Option (List String)) : String :=
  let origExt := rp.origExt
  let base := rp.stem
  let base :=
    match header_data with
    | Option.some hd =>
      if hd ≠ [] then
        let suffix := RawDataStorage.headerSuffix hd
        if suffix ≠ "" then base ++ "_" ++ suffix else base
      else base
    | Option.none => base
  let base := if origExt ≠ "" then base ++ "_" ++ origExt else base
  joinPath (outputDirRaw :: rp.parents) ++ "/" ++ base ++ ".xlsx"

/-- Embedding of `RawDataStorage._create_output_path` (`storage.py`).  Python's
`if table_name:` is a truthiness test, so `None` and the empty string
both select the single-table branch.  In the multi-table branch a
sub-folder named after the stem is created and the filename is
`{stem}_{table_name}` plus `_{orig_ext}` when the original extension
is non-empty, with the `.xlsx` output extension. -/
def RawDataStorage.createOutputPath (outputDirRaw : String) (rp : RelPath)
    (table_name : Option String) (header_data : Option (List String)) : String :=
  match table_name with
  | Option.some tn =>
    if tn ≠ "" then
      let origExt := rp.origExt
      let base := rp.stem ++ "_" ++ tn
      let base := if origExt ≠ "" then base ++ "_" ++ origExt else base
      joinPath (outputDirRaw :: (rp.parents ++ [rp.stem])) ++ "/" ++ base ++ ".xlsx"
    else RawDataStorage.singleTablePath outputDirRaw rp header_data
  | Option.none => RawDataStorage.singleTablePath outputDirRaw rp header_data

/-- The errors `MDBAdapter.fetch` (`adapters/mdb.py`) can raise:
`FileNotFoundError` for a missing file; `ValueError` with message
`No tables found in {path}` when `mdb-tables` reports no table (the
condition the spec's taxonomy names `SourceFormatError`);
`attributeError` for the `AttributeError` its final
`self.transform(raw_data)` call raises (iterating the `raw_data` dict
yields its string keys, and a `str` has no `as_dicts`). -/
inductive MdbError where
  | fileNotFound (path : String) : MdbError
  | noTablesFound (path : String) : MdbError
  | attributeError : MdbError
deriving DecidableEq, Repr

/-- Observable trace of one `MDBAdapter.fetch` run: which tables were
handed to `mdb-export`, and the per-table data that parsed
successfully (a failing export is logged and skipped). -/
structure MdbFetchTrace where
  exportCalls : List String
  tablesData : List (String × List (List String))
deriving DecidableEq, Repr

/-- Embedding of `MDBAdapter.fetch` (`adapters/mdb.py`).  `exists_` abstracts
`path.exists()`, `tables` the (stripped, non-empty) names
`_get_tables` returns, and `exportCsv` the `mdb-export`-plus-`csv`
pipeline for one table (`Except.error` when the subprocess fails).
A missing file raises `FileNotFoundError`; an empty table list raises
`ValueError(f"No tables found in {path}")` before any table is
exported; otherwise every table is exported (failures skipped with a
warning) and the closing `self.transform(raw_data)` call raises
`AttributeError` — iterating the `raw_data` dict yields the key
`'tables'` first, and `'tables'.as_dicts()` is an attribute error — so
`fetch` never returns normally (result type `Empty`). -/
def MDBAdapter.fetch (path : String) (exists_ : Bool) (tables : List String)
    (exportCsv : String → Except String (List (List String))) :
    Except MdbError Empty × MdbFetchTrace :=
  if exists_ = false then (.error (MdbError.fileNotFound path), ⟨[], []⟩)
  else if tables = [] then (.error (MdbError.noTablesFound path), ⟨[], []⟩)
  else
    (.error MdbError.attributeError,
     ⟨tables, tables.filterMap (fun t => ((exportCsv t).toOption).map (fun d => (t, d)))⟩)

/-- What `DataIngestion.process_file` (`ingestion.py`) lets the storage
layer write after a fetch: any exception is caught by the blanket
`except`, logged, and turned into a `None` result, so the storage layer
is never invoked and no output file is produced; only a successful
fetch hands data over to `save`. -/
def DataIngestion.outputsAfterFetch {ε α : Type} (fetchResult : Except ε α)
    (save : α → List String) : List String :=
  match fetchResult with
  | .error _ => []
  | .ok a => save a

/-- The per-file loop of `RawDataProcessor.process` (`core.py`): each
regular file is processed independently and its outcome appended; no
state other than the appended outcome crosses file boundaries. -/
def runFiles {α β : Type} (processOne : α → β) (files : List α) : List β :=
  files.map processOne

/-! ## Helper lemmas -/

/-- A successful `mapExcept` preserves the length of the list. -/
theorem mapExcept_ok_length {ε α β : Type} (f : α → Except ε β) :
    ∀ (l : List α) (l' : List β), mapExcept f l = .ok l' → l'.length = l.length := by
  intro l
  induction l with
  | nil => intro l' h; simp [mapExcept] at h; simp [← h]
  | cons x xs ih =>
    intro l' h
    simp only [mapExcept] at h
    cases hfx : f x with
    | error e => rw [hfx] at h; simp at h
    | ok y =>
      rw [hfx] at h
      cases hxs : mapExcept f xs with
      | error e => rw [hxs] at h; simp [Except.map] at h
      | ok ys =>
        rw [hxs] at h
        simp [Except.map] at h
        subst h
        simp [ih ys hxs]

/-- When every element maps successfully, `mapExcept` is the plain map. -/
theorem mapExcept_eq_map {ε α β : Type} (f : α → Except ε β) (g : α → β) :
    ∀ (l : List α), (∀ x ∈ l, f x = .ok (g x)) → mapExcept f l = .ok (l.map g) := by
  intro l
  induction l with
  | nil => intro _; simp [mapExcept]
  | cons x xs ih =>
    intro h
    simp only [mapExcept]
    rw [h x (by simp)]
    rw [ih (fun y hy => h y (by simp [hy]))]
    simp [Except.map]

/-- Cancellation of a common enclosing context of string appends: the
middle part is determined. -/
theorem string_append_middle_cancel (p q s₁ s₂ : String)
    (h : p ++ s₁ ++ q = p ++ s₂ ++ q) : s₁ = s₂ := by
  apply String.ext
  have hd := congrArg String.data h
  simp only [String.data_append, List.append_assoc] at hd
  exact List.append_cancel_right (List.append_cancel_left hd)

/-- Length bound for the strip step of the header suffix. -/
theorem stripUnderscoreHyphen_length_le (l : List Char) :
    (stripUnderscoreHyphen l).length ≤ l.length := by
  unfold stripUnderscoreHyphen
  calc ((l.dropWhile isUnderscoreOrHyphen).reverse.dropWhile
          isUnderscoreOrHyphen).reverse.length
      ≤ (l.dropWhile isUnderscoreOrHyphen).reverse.length := by
        rw [List.length_reverse]
        exact (List.dropWhile_sublist _).length_le
    _ ≤ l.length := by
        rw [List.length_reverse]
        exact (List.dropWhile_sublist _).length_le

/-- Membership transfer for the strip step of the header suffix. -/
theorem stripUnderscoreHyphen_subset (l : List Char) :
    stripUnderscoreHyphen l ⊆ l := by
  unfold stripUnderscoreHyphen
  intro c hc
  rw [List.mem_reverse] at hc
  have hc2 := (List.dropWhile_sublist isUnderscoreOrHyphen).subset hc
  rw [List.mem_reverse] at hc2
  exact (List.dropWhile_sublist isUnderscoreOrHyphen).subset hc2

/-! ## Claims -/

/-- C1 (counterexample): contrary to the claim, the closed
extension-to-type table of `ingestion.py` has no entry for `.mdb` or
`.accdb`; `process_file` treats both as unrecognized extensions,
logging a warning and returning `None` (skip) instead of routing them
to the legacy-database adapter. -/
theorem mdb_extensions_are_skipped_not_routed :
    DataIngestion.getSourceType ".mdb" = Option.none ∧
    DataIngestion.getSourceType ".accdb" = Option.none ∧
    DataIngestion.processFileRoute ".mdb" = RouteDecision.skip ∧
    DataIngestion.processFileRoute ".accdb" = RouteDecision.skip ∧
    RouteDecision.skip ≠ RouteDecision.routed "mdb" "mdb" := by
  refine ⟨rfl, rfl, rfl, rfl, ?_⟩
  decide

/-- C1 (amended): `DataIngestion.process_file` derives the source type
from the closed four-entry extension table (`.json`→json, `.csv`→csv,
`.xlsx`/`.xls`→xlsx); a file whose lowered extension is outside that
table — `.mdb` and `.accdb` files included — logs a warning and
returns `None` (a deliberate skip, not a failure), and each of the
four recognized extensions routes to the delimited-file or spreadsheet
adapter. -/
theorem processFileRoute_closed_table (suffix : String) :
    (DataIngestion.processFileRoute suffix = RouteDecision.skip ↔
      pyLower suffix ∉ [".json", ".csv", ".xlsx", ".xls"]) ∧
    (pyLower suffix = ".json" →
      DataIngestion.processFileRoute suffix = RouteDecision.routed "file" "json") ∧
    (pyLower suffix = ".csv" →
      DataIngestion.processFileRoute suffix = RouteDecision.routed "file" "csv") ∧
    (pyLower suffix = ".xlsx" →
      DataIngestion.processFileRoute suffix = RouteDecision.routed "xlsx" "xlsx") ∧
    (pyLower suffix = ".xls" →
      DataIngestion.processFileRoute suffix = RouteDecision.routed "xlsx" "xlsx") := by
  unfold DataIngestion.processFileRoute DataIngestion.getSourceType
    DataIngestion.getAdapterType
  by_cases h1 : pyLower suffix = ".json" <;>
    by_cases h2 : pyLower suffix = ".csv" <;>
      by_cases h3 : pyLower suffix = ".xlsx" <;>
        by_cases h4 : pyLower suffix = ".xls" <;>
          simp_all

/-- C1 (witness): the `.CSV` extension lowers into the table and routes
to the delimited-file adapter; `.txt` is outside the table and skips. -/
theorem processFileRoute_closed_table_instance :
    DataIngestion.processFileRoute ".CSV" = RouteDecision.routed "file" "csv" ∧
    DataIngestion.processFileRoute ".txt" = RouteDecision.skip := by
  constructor
  · exact (processFileRoute_closed_table ".CSV").2.2.1 (by decide)
  · exact ((processFileRoute_closed_table ".txt").1).mpr (by decide)

/-- C2 (counterexample): contrary to the claim, the factory table of
`factory.py` has no `'mdb'` entry — `create_adapter('mdb', ...)` raises
`ValueError("Unsupported source type: mdb")` instead of constructing
the legacy-database adapter. -/
theorem create_adapter_rejects_mdb_tag :
    create_adapter "mdb" [("path", Val.str "db1.mdb")] =
      Except.error "Unsupported source type: mdb" := by
  rfl

/-- C2 (amended): `create_adapter` maps exactly the four source-type
tags `'rest'`, `'file'`, `'database'` and `'xlsx'` to the
corresponding adapter constructor (whose construction runs that
class's configuration validation), and for every other `source_type`
string — `'mdb'` included — it fails with an error whose message names
the offending tag. -/
theorem create_adapter_closed_table (source_type : String) (config : Config) :
    (source_type ∉ ["rest", "file", "database", "xlsx"] →
      create_adapter source_type config =
        Except.error ("Unsupported source type: " ++ source_type)) ∧
    create_adapter "rest" config =
      (RESTAdapter.validate_config config).map (fun c => (AdapterKind.rest, c)) ∧
    create_adapter "file" config =
      (FileAdapter.validate_config config).map (fun c => (AdapterKind.file, c)) ∧
    create_adapter "database" config =
      (DatabaseAdapter.validate_config config).map (fun c => (AdapterKind.database, c)) ∧
    create_adapter "xlsx" config =
      (XLSXAdapter.validate_config config).map (fun c => (AdapterKind.xlsx, c)) := by
  refine ⟨?_, rfl, rfl, rfl, rfl⟩
  intro h
  simp only [List.mem_cons, List.not_mem_nil, or_false, not_or] at h
  obtain ⟨h1, h2, h3, h4⟩ := h
  unfold create_adapter factoryAdapters
  simp [List.lookup, beq_eq_false_iff_ne.mpr h1, beq_eq_false_iff_ne.mpr h2,
    beq_eq_false_iff_ne.mpr h3, beq_eq_false_iff_ne.mpr h4]

/-- C2 (witness): an unknown tag fails with the tag-naming message, and
a known tag dispatches to its constructor, which validates the config. -/
theorem create_adapter_closed_table_instance :
    create_adapter "grpc" [] = Except.error "Unsupported source type: grpc" ∧
    create_adapter "rest" [] = Except.error "Missing required field: url" := by
  constructor
  · exact (create_adapter_closed_table "grpc" []).1 (by decide)
  · exact (create_adapter_closed_table "rest" []).2.1

/-- C3 (counterexample): contrary to the claim, `transform` does not
return Tables with stamped metadata: on a concrete one-table input its
output is a list containing a plain dict
`{'source': ..., 'timestamp': ..., 'data': table.as_dicts()}` — no
element of the output is a `Table` — and re-applying `transform` to
that output raises `AttributeError` (the dict has no `as_dicts`), so
it is not idempotent. -/
theorem transform_output_not_tables :
    BaseAdapter.transform "FileAdapter" "2024-01-01T00:00:00"
        [TItem.table { name := "t", columns := ["a"], records := [[Val.int 1]],
                       metadata := [] }] =
      Except.ok [TItem.entry "FileAdapter" "2024-01-01T00:00:00" [[("a", Val.int 1)]]] ∧
    ([TItem.entry "FileAdapter" "2024-01-01T00:00:00" [[("a", Val.int 1)]]].all
        TItem.isTable) = false ∧
    BaseAdapter.transform "FileAdapter" "2024-01-01T00:00:01"
        [TItem.entry "FileAdapter" "2024-01-01T00:00:00" [[("a", Val.int 1)]]] =
      Except.error PyErr.attributeError :=
  ⟨rfl, rfl, rfl⟩

/-- C3 (amended): `BaseAdapter.transform` replaces each input `Table`
by the dict `{'source': adapter class name, 'timestamp': fetch time,
'data': table.as_dicts()}` — the tables' columns and records survive
only inside the `data` row-dicts, the input tables themselves are not
mutated — and applying `transform` to a list beginning with one of its
own output dicts raises `AttributeError`, so it cannot be re-applied to
its own (non-empty) output. -/
theorem transform_wraps_tables_into_entries (clsName now : String) (tables : List Table) :
    BaseAdapter.transform clsName now (tables.map TItem.table) =
      Except.ok (tables.map (fun t => TItem.entry clsName now
        (t.records.map (fun record => t.columns.zip record)))) ∧
    (∀ (src ts : String) (d : List (List (String × Val))) (rest : List TItem),
      BaseAdapter.transform clsName now (TItem.entry src ts d :: rest) =
        Except.error PyErr.attributeError) := by
  constructor
  · induction tables with
    | nil => rfl
    | cons t ts ih =>
      simp only [List.map_cons, BaseAdapter.transform, mapExcept,
        TItem.asDictsMethod, Except.map] at ih ⊢
      rw [ih]
      rfl
  · intro src ts d rest
    rfl

/-- Every element of a successful `mapExcept` output comes from a
successful application of the function to some input element. -/
theorem mapExcept_ok_mem {ε α β : Type} (f : α → Except ε β) :
    ∀ (l : List α) (l' : List β), mapExcept f l = .ok l' →
      ∀ y ∈ l', ∃ x ∈ l, f x = .ok y := by
  intro l
  induction l with
  | nil =>
    intro l' h y hy
    simp only [mapExcept, Except.ok.injEq] at h
    subst h
    simp at hy
  | cons x xs ih =>
    intro l' h y hy
    simp only [mapExcept] at h
    cases hfx : f x with
    | error e => rw [hfx] at h; simp at h
    | ok z =>
      rw [hfx] at h
      cases hxs : mapExcept f xs with
      | error e => rw [hxs] at h; simp [Except.map] at h
      | ok ys =>
        rw [hxs] at h
        simp only [Except.map, Except.ok.injEq] at h
        subst h
        rcases List.mem_cons.mp hy with h1 | h2
        · exact ⟨x, by simp, by rw [hfx, h1]⟩
        · obtain ⟨x', hx', hfx'⟩ := ih ys hxs y h2
          exact ⟨x', by simp [hx'], hfx'⟩

/-- C4 (counterexample): contrary to the claim, the CSV branch of
`FileAdapter.fetch` does not enforce the record-arity invariant — a
ragged CSV input with a two-column header and a three-value data row
yields a table whose single record has length 3 while `columns` has
length 2. -/
theorem csv_fetch_allows_ragged_records :
    FileAdapter.fetchCsv "s" [["a", "b"], ["1", "2", "3"]] =
      [{ name := "s", columns := ["a", "b"],
         records := [[Val.str "1", Val.str "2", Val.str "3"]],
         metadata := [("file_type", Val.str "csv"), ("row_count", Val.int 1),
                      ("column_count", Val.int 2)] }] ∧
    ((FileAdapter.fetchCsv "s" [["a", "b"], ["1", "2", "3"]]).all
      (fun t => t.records.all (fun rec => rec.length == t.columns.length))) = false :=
  ⟨rfl, rfl⟩

/-- C4 (amended): every table produced by the delimited-file adapter's
JSON branch satisfies the record-arity invariant (each record's length
equals the number of columns), and a table produced by the CSV branch
satisfies it exactly when the input rows are rectangular — every data
row as long as the header row; a ragged CSV row is stored untrimmed
and unpadded. -/
theorem fetch_record_arity (stem : String) (rows : List (List String)) (root : Val)
    (tables : List Table)
    (hrect : ∀ r ∈ rows.tail, r.length = (rows.headD []).length)
    (hjson : FileAdapter.fetchJson stem root = Except.ok tables) :
    (∀ t ∈ FileAdapter.fetchCsv stem rows, ∀ rec ∈ t.records,
        rec.length = t.columns.length) ∧
    (∀ t ∈ tables, ∀ rec ∈ t.records, rec.length = t.columns.length) := by
  constructor
  · cases rows with
    | nil => intro t ht; simp [FileAdapter.fetchCsv] at ht
    | cons header rest =>
      intro t ht rec hrec
      simp only [FileAdapter.fetchCsv, List.mem_singleton] at ht
      subst ht
      simp only [List.mem_map] at hrec
      obtain ⟨r, hr, hrecr⟩ := hrec
      subst hrecr
      simpa using hrect r hr
  · have hfall : ∀ (r : Val) (t : Table),
        t ∈ [FileAdapter.jsonFallbackTable stem r] →
        ∀ rec ∈ t.records, rec.length = t.columns.length := by
      intro r t ht rec hrec
      simp only [List.mem_singleton] at ht
      subst ht
      simp only [FileAdapter.jsonFallbackTable, List.mem_singleton] at hrec
      subst hrec
      rfl
    cases root
    case list xs =>
      cases xs with
      | nil =>
        simp only [FileAdapter.fetchJson, Except.ok.injEq] at hjson
        subst hjson
        exact hfall _
      | cons first rest =>
        cases first
        case dict kvs0 =>
          simp only [FileAdapter.fetchJson] at hjson
          cases hme : mapExcept
              (fun row => mapExcept (pyGet row) (kvs0.map Prod.fst))
              (Val.dict kvs0 :: rest) with
          | error e => rw [hme] at hjson; simp [Except.map] at hjson
          | ok records =>
            rw [hme] at hjson
            simp only [Except.map, Except.ok.injEq] at hjson
            subst hjson
            intro t ht rec hrec
            simp only [List.mem_singleton] at ht
            subst ht
            obtain ⟨row, hrow, hfrow⟩ := mapExcept_ok_mem _ _ _ hme rec hrec
            have hlen := mapExcept_ok_length _ _ _ hfrow
            simpa using hlen
        all_goals
          simp only [FileAdapter.fetchJson, Except.ok.injEq] at hjson
          subst hjson
          exact hfall _
    all_goals
      simp only [FileAdapter.fetchJson, Except.ok.injEq] at hjson
      subst hjson
      exact hfall _

/-- C4 (witness): a rectangular CSV input and a non-list JSON root both
satisfy the arity invariant. -/
theorem fetch_record_arity_instance :
    (∀ t ∈ FileAdapter.fetchCsv "s" [["a", "b"], ["1", "2"]], ∀ rec ∈ t.records,
        rec.length = t.columns.length) ∧
    (∀ t ∈ [FileAdapter.jsonFallbackTable "s" (Val.int 3)], ∀ rec ∈ t.records,
        rec.length = t.columns.length) :=
  fetch_record_arity "s" [["a", "b"], ["1", "2"]] (Val.int 3) _ (by decide) rfl

/-- C5 (confirmed): for every non-empty parsed CSV input the CSV branch
of `FileAdapter.fetch` returns exactly one table whose columns are the
file's first row exactly and in order, whose records are the remaining
rows with every value kept as text (wrapped unchanged, no type
coercion), and whose record count is the input row count minus one. -/
theorem csv_fetch_one_table (stem : String) (header : List String)
    (rest : List (List String)) (rows : List (List String))
    (h : rows = header :: rest) :
    FileAdapter.fetchCsv stem rows =
      [{ name := stem, columns := header,
         records := rest.map (fun row => row.map Val.str),
         metadata := [("file_type", Val.str "csv"),
                      ("row_count", Val.int rest.length),
                      ("column_count", Val.int header.length)] }] ∧
    (FileAdapter.fetchCsv stem rows).length = 1 ∧
    rest.length = rows.length - 1 := by
  subst h
  refine ⟨?_, rfl, by simp⟩
  simp [FileAdapter.fetchCsv]

/-- C5 (witness): a concrete two-row CSV file yields one table with the
header as columns and one textual record. -/
theorem csv_fetch_one_table_instance :
    FileAdapter.fetchCsv "s" [["a", "b"], ["1", "2"]] =
      [{ name := "s", columns := ["a", "b"],
         records := [[Val.str "1", Val.str "2"]],
         metadata := [("file_type", Val.str "csv"),
                      ("row_count", Val.int 1),
                      ("column_count", Val.int 2)] }] ∧
    (FileAdapter.fetchCsv "s" [["a", "b"], ["1", "2"]]).length = 1 ∧
    [["1", "2"]].length = [["a", "b"], ["1", "2"]].length - 1 :=
  csv_fetch_one_table "s" ["a", "b"] [["1", "2"]] [["a", "b"], ["1", "2"]] rfl

/-- C6 (counterexample): contrary to the claim, a JSON root that is a
non-empty list whose FIRST element is an object does not always yield
a table: on this input the first object has a key, so the row-building
comprehension calls `.get` on the later integer element and `fetch`
raises `AttributeError` instead of returning a table.  (An EMPTY first
object gives `columns = []`, no lookup happens, and a zero-column
table is returned even over non-object later elements.) -/
theorem json_fetch_crashes_on_mixed_list :
    (Val.list [Val.dict [("a", Val.int 1)], Val.int 5]).isNonEmptyListHeadDict = true ∧
    FileAdapter.fetchJson "s" (Val.list [Val.dict [("a", Val.int 1)], Val.int 5]) =
      Except.error PyErr.attributeError :=
  ⟨rfl, rfl⟩

/-- C6 (amended): for a JSON root that is a non-empty list ALL of whose
elements are objects, `fetch` returns one table with columns equal to
the first object's keys in order and each row built by looking up each
column in each object with the `None` placeholder for missing keys
(extra keys of later objects dropped); for every root that is not a
non-empty list with an object first element, `fetch` returns the
single-column, single-row table containing the stringified root. -/
theorem json_fetch_spec (stem : String) (kvs0 : List (String × Val)) (rest : List Val)
    (root : Val) (hall : ∀ r ∈ rest, r.isDict = true)
    (hfb : root.isNonEmptyListHeadDict = false) :
    FileAdapter.fetchJson stem (Val.list (Val.dict kvs0 :: rest)) =
      Except.ok [{ name := stem,
                   columns := kvs0.map Prod.fst,
                   records := (Val.dict kvs0 :: rest).map (fun row =>
                     (kvs0.map Prod.fst).map (fun col => pyGetD row col)),
                   metadata := [("file_type", Val.str "json"),
                                ("row_count", Val.int (rest.length + 1)),
                                ("column_count", Val.int kvs0.length)] }] ∧
    FileAdapter.fetchJson stem root = Except.ok [FileAdapter.jsonFallbackTable stem root] := by
  constructor
  · have hrows : ∀ row ∈ (Val.dict kvs0 :: rest),
        mapExcept (pyGet row) (kvs0.map Prod.fst) =
          .ok ((kvs0.map Prod.fst).map (fun col => pyGetD row col)) := by
      intro row hrow
      apply mapExcept_eq_map
      intro col _
      rcases List.mem_cons.mp hrow with h1 | h2
      · subst h1; rfl
      · have hd := hall row h2
        cases row
        all_goals first
          | rfl
          | simp [Val.isDict] at hd
    simp only [FileAdapter.fetchJson]
    rw [mapExcept_eq_map _ _ _ hrows]
    simp [Except.map]
  · cases root
    case list xs =>
      cases xs with
      | nil => rfl
      | cons first rest2 =>
        cases first
        case dict kvs => simp [Val.isNonEmptyListHeadDict, Val.isDict] at hfb
        all_goals rfl
    all_goals rfl

/-- C6 (witness): a homogeneous two-object list (second object missing
key `a`, whose slot becomes the `None` placeholder) and a bare integer
root (stringified into the fallback table). -/
theorem json_fetch_spec_instance :
    FileAdapter.fetchJson "s"
        (Val.list [Val.dict [("a", Val.int 1), ("b", Val.str "x")],
                   Val.dict [("b", Val.bool true)]]) =
      Except.ok [{ name := "s", columns := ["a", "b"],
                   records := [[Val.int 1, Val.str "x"], [Val.null, Val.bool true]],
                   metadata := [("file_type", Val.str "json"),
                                ("row_count", Val.int 2),
                                ("column_count", Val.int 2)] }] ∧
    FileAdapter.fetchJson "s" (Val.int 7) =
      Except.ok [FileAdapter.jsonFallbackTable "s" (Val.int 7)] := by
  have h := json_fetch_spec "s" [("a", Val.int 1), ("b", Val.str "x")]
      [Val.dict [("b", Val.bool true)]] (Val.int 7) (by decide) rfl
  exact ⟨h.1, h.2⟩

/-- Rendering of the C7 claim's own suffix procedure, written from the
spec's words for comparison with the code's computation: join with
underscores, replace every character outside `[A-Za-z0-9_-]` by an
underscore (ASCII reading of alphanumeric), truncate to 50 characters —
with no edge-stripping step. -/
def headerSuffixClaimed (header_data : List String) : String :=
  let joined := String.intercalate "_" header_data
  let replaced := joined.data.map (fun c =>
    if c.isAlphanum || c = '_' || c = '-' then c else '_')
  String.mk (replaced.take 50)

/-- C7 (counterexample): contrary to the claim, the code's suffix for
header `café!` is `café` — Python's `isalnum` keeps the non-ASCII
letter `é`, so the result is not drawn from `[A-Za-z0-9_-]`, and the
trailing underscore the claimed procedure would leave (`caf__` under
its ASCII reading) is stripped by the code's `.strip('_-')` step. -/
theorem header_suffix_unicode_and_strip_differ :
    RawDataStorage.headerSuffix ["café!"] = "café" ∧
    headerSuffixClaimed ["café!"] = "caf__" ∧
    ("café".data.all (fun c => c.isAlphanum || c = '_' || c = '-')) = false := by
  refine ⟨?_, ?_, ?_⟩ <;> decide

/-- C7 (amended): for every non-empty `header_data`, the filename
suffix is the header texts joined with underscores, with every
character that is not alphanumeric in Python's Unicode sense,
underscore, or hyphen replaced by an underscore, truncated to at most
50 characters and stripped of leading/trailing underscores and
hyphens; hence the suffix has length at most 50 and contains only
(possibly non-ASCII) alphanumeric characters, underscores, or hyphens,
and when it is empty it is omitted from the filename. -/
theorem header_suffix_sanitized (header_data : List String) (hne : header_data ≠ [])
    (outputDirRaw : String) (rp : RelPath) :
    (RawDataStorage.headerSuffix header_data).length ≤ 50 ∧
    (∀ c ∈ (RawDataStorage.headerSuffix header_data).data,
       pyIsAlnum c = true ∨ c = '_' ∨ c = '-') ∧
    (RawDataStorage.headerSuffix header_data = "" →
       RawDataStorage.singleTablePath outputDirRaw rp (Option.some header_data) =
         RawDataStorage.singleTablePath outputDirRaw rp Option.none) := by
  refine ⟨?_, ?_, ?_⟩
  · show (stripUnderscoreHyphen _).length ≤ 50
    refine le_trans (stripUnderscoreHyphen_length_le _) ?_
    rw [List.length_take]
    exact inf_le_left
  · intro c hc
    have hc2 := stripUnderscoreHyphen_subset _ hc
    have hc3 := List.take_subset _ _ hc2
    rw [List.mem_map] at hc3
    obtain ⟨a, _, ha⟩ := hc3
    by_cases h : (pyIsAlnum a || a = '_' || a = '-') = true
    · rw [if_pos h] at ha
      subst ha
      simpa [or_assoc] using h
    · rw [if_neg h] at ha
      subst ha
      exact Or.inr (Or.inl rfl)
  · intro hsuf
    unfold RawDataStorage.singleTablePath
    simp [hne, hsuf]

/-- C7 (witness): a concrete header keeps its suffix within the bound,
and a header sanitizing to the empty suffix leaves the filename
without a suffix component. -/
theorem header_suffix_sanitized_instance :
    (RawDataStorage.headerSuffix ["Report: Q1/2024"]).length ≤ 50 ∧
    RawDataStorage.singleTablePath "raw" { parents := [], stem := "s", suffix := ".csv" }
        (Option.some ["!!"]) =
      RawDataStorage.singleTablePath "raw" { parents := [], stem := "s", suffix := ".csv" }
        Option.none := by
  constructor
  · exact (header_suffix_sanitized ["Report: Q1/2024"] (by decide) "raw"
      { parents := [], stem := "s", suffix := ".csv" }).1
  · exact (header_suffix_sanitized ["!!"] (by decide) "raw"
      { parents := [], stem := "s", suffix := ".csv" }).2.2 (by decide)

/-- C8 (confirmed): for a multi-table source with stem `S`, parent
directories `D`, and non-empty lowered original extension `E`, table
`T` is written to `{output}/raw/D/S/S_T_E.xlsx`; distinct table names
give distinct output paths, and the legacy-database file `db1.mdb`
with tables `A` and `B` yields `raw/db1/db1_A_mdb.xlsx` and
`raw/db1/db1_B_mdb.xlsx`. -/
theorem multi_table_paths_distinct (outputDirRaw : String) (rp : RelPath)
    (header_data : Option (List String)) (t1 t2 : String)
    (h1 : t1 ≠ "") (h2 : t2 ≠ "") (hne : t1 ≠ t2) (hext : rp.origExt ≠ "") :
    RawDataStorage.createOutputPath outputDirRaw rp (Option.some t1) header_data =
      (joinPath (outputDirRaw :: (rp.parents ++ [rp.stem])) ++ "/" ++ rp.stem ++ "_") ++
        t1 ++ ("_" ++ rp.origExt ++ ".xlsx") ∧
    RawDataStorage.createOutputPath outputDirRaw rp (Option.some t1) header_data ≠
      RawDataStorage.createOutputPath outputDirRaw rp (Option.some t2) header_data ∧
    RawDataStorage.createOutputPath "raw" { parents := [], stem := "db1", suffix := ".mdb" }
        (Option.some "A") Option.none = "raw/db1/db1_A_mdb.xlsx" ∧
    RawDataStorage.createOutputPath "raw" { parents := [], stem := "db1", suffix := ".mdb" }
        (Option.some "B") Option.none = "raw/db1/db1_B_mdb.xlsx" := by
  have hpath : ∀ t : String, t ≠ "" →
      RawDataStorage.createOutputPath outputDirRaw rp (Option.some t) header_data =
        (joinPath (outputDirRaw :: (rp.parents ++ [rp.stem])) ++ "/" ++ rp.stem ++ "_") ++
          t ++ ("_" ++ rp.origExt ++ ".xlsx") := by
    intro t ht
    simp only [RawDataStorage.createOutputPath]
    rw [if_pos ht, if_pos hext]
    simp [String.append_assoc]
  refine ⟨hpath t1 h1, ?_, by decide, by decide⟩
  rw [hpath t1 h1, hpath t2 h2]
  intro heq
  exact hne (string_append_middle_cancel _ _ _ _ heq)

/-- C8 (witness): the two claimed concrete paths for `db1.mdb` are
distinct. -/
theorem multi_table_paths_distinct_instance :
    RawDataStorage.createOutputPath "raw" { parents := [], stem := "db1", suffix := ".mdb" }
        (Option.some "A") Option.none ≠
      RawDataStorage.createOutputPath "raw" { parents := [], stem := "db1", suffix := ".mdb" }
        (Option.some "B") Option.none :=
  (multi_table_paths_distinct "raw" { parents := [], stem := "db1", suffix := ".mdb" }
    Option.none "A" "B" (by decide) (by decide) (by decide) (by decide)).2.1

/-- C9 (confirmed): a legacy-database file exposing zero tables makes
`MDBAdapter.fetch` fail with the zero-table `ValueError` (the spec's
`SourceFormatError` condition) before any `mdb-export` call, so the
blanket per-file exception handler of `process_file` turns it into a
skipped file with zero output writes, and the per-file loop of the
processor maps files independently — the failing file leaves every
other file's outcome unchanged. -/
theorem mdb_fetch_zero_tables_fails_before_export {α β : Type}
    (path : String) (tables : List String)
    (exportCsv : String → Except String (List (List String)))
    (h : tables = []) (save : Empty → List String)
    (processOne : α → β) (pre post : List α) (f : α) :
    MDBAdapter.fetch path true tables exportCsv =
      (Except.error (MdbError.noTablesFound path),
       { exportCalls := [], tablesData := [] }) ∧
    DataIngestion.outputsAfterFetch (MDBAdapter.fetch path true tables exportCsv).1 save = [] ∧
    runFiles processOne (pre ++ f :: post) =
      runFiles processOne pre ++ processOne f :: runFiles processOne post := by
  subst h
  refine ⟨rfl, rfl, by simp [runFiles]⟩

/-- C9 (witness): a concrete empty-table fetch fails with the
zero-table error, produces no export calls and no outputs, and a
concrete three-file run processes its files independently. -/
theorem mdb_fetch_zero_tables_instance :
    MDBAdapter.fetch "legacy.mdb" true [] (fun _ => Except.error "boom") =
      (Except.error (MdbError.noTablesFound "legacy.mdb"),
       { exportCalls := [], tablesData := [] }) ∧
    DataIngestion.outputsAfterFetch
        (MDBAdapter.fetch "legacy.mdb" true [] (fun _ => Except.error "boom")).1
        (fun e => e.elim) = [] ∧
    runFiles (fun n : Nat => n + 1) ([1] ++ 7 :: [2]) =
      runFiles (fun n : Nat => n + 1) [1] ++ (7 + 1) :: runFiles (fun n : Nat => n + 1) [2] :=
  mdb_fetch_zero_tables_fails_before_export "legacy.mdb" []
    (fun _ => Except.error "boom") rfl (fun e => e.elim) (fun n => n + 1) [1] [2] 7

/-- C10 (confirmed): constructing an `XLSXAdapter` through the factory
with a config that has `path` but lacks `sheet_name` yields the
caller's mapping with `'sheet_name': 0` appended (the in-place dict
mutation, modelled by state passing); when the config already has both
`path` and `sheet_name`, the mapping comes back unchanged.  (A config
without `path` raises `ValueError` before the `sheet_name` check, so no
adapter is constructed and nothing is inserted.) -/
theorem xlsx_construction_defaults_sheet_name (config : Config)
    (hpath : (config.lookup "path").isSome = true) :
    ((config.lookup "sheet_name") = Option.none →
      create_adapter "xlsx" config =
        Except.ok (AdapterKind.xlsx, config ++ [("sheet_name", Val.int 0)])) ∧
    (∀ v, config.lookup "sheet_name" = Option.some v →
      create_adapter "xlsx" config = Except.ok (AdapterKind.xlsx, config)) := by
  have hnone : (config.lookup "path").isNone = false := by
    cases hx : config.lookup "path" with
    | none => rw [hx] at hpath; simp at hpath
    | some p => rfl
  have hfact : create_adapter "xlsx" config =
      (XLSXAdapter.validate_config config).map (fun c => (AdapterKind.xlsx, c)) := rfl
  constructor
  · intro hsn
    rw [hfact]
    unfold XLSXAdapter.validate_config
    simp [hnone, hsn, Except.map]
  · intro v hv
    rw [hfact]
    unfold XLSXAdapter.validate_config
    simp [hnone, hv, Except.map]

/-- C10 (witness): a path-only config gains `'sheet_name': 0`; a config
already carrying `sheet_name` comes back unchanged. -/
theorem xlsx_construction_defaults_sheet_name_instance :
    create_adapter "xlsx" [("path", Val.str "f.xlsx")] =
      Except.ok (AdapterKind.xlsx,
        [("path", Val.str "f.xlsx"), ("sheet_name", Val.int 0)]) ∧
    create_adapter "xlsx" [("path", Val.str "f.xlsx"), ("sheet_name", Val.int 2)] =
      Except.ok (AdapterKind.xlsx,
        [("path", Val.str "f.xlsx"), ("sheet_name", Val.int 2)]) := by
  constructor
  · exact (xlsx_construction_defaults_sheet_name [("path", Val.str "f.xlsx")] rfl).1 rfl
  · exact (xlsx_construction_defaults_sheet_name
      [("path", Val.str "f.xlsx"), ("sheet_name", Val.int 2)] rfl).2 (Val.int 2) rfl
